import Mathlib

/-!
Verification of the memory-and-injection subsystem of the sam2-voice
repository against its natural-language specification.

The Python source is shallowly embedded: pure computations become Lean
functions over `ℚ` (for Python floats, with an explicit `PyFloat` type
where NaN/Inf matter), Redis is modelled as an association list of
JSON records keyed by strings, fallible operations return `Except`,
and the external vector index is a parameter returning either a result
list or an error (the engine itself is out of scope per the spec).
-/

namespace SamVoice

/-- A Python float value: either a finite rational or one of the
non-finite IEEE values (`nan`, `inf`, `-inf`).  Embedding vectors are
lists of these, so that the validator's NaN/Inf check is expressible. -/
inductive PyFloat where
  | finite (q : ℚ)
  | nan
  | inf
  | ninf
  deriving DecidableEq, Repr

/-- Python `math.isnan(v) or math.isinf(v)` is false exactly on
finite values. -/
def PyFloat.isFinite : PyFloat → Bool
  | .finite _ => true
  | _ => false

/-! ### Decimal rendering of the millisecond timestamp

Python renders `timestamp_ms` into the Redis key with an f-string,
i.e. standard decimal notation.  We embed that rendering and prove it
injective by exhibiting the decimal parser as a left inverse. -/

/-- Fuel-driven decimal digit rendering (most significant digit first).
`fuel = n + 1` always suffices because the value shrinks by a factor of
ten at each step. -/
def renderDecAux : Nat → Nat → List Char
  | 0, _ => []
  | fuel + 1, n =>
    if n < 10 then [Nat.digitChar n]
    else renderDecAux fuel (n / 10) ++ [Nat.digitChar (n % 10)]

/-- Decimal rendering of a natural number, as in a Python f-string. -/
def renderDec (n : Nat) : String :=
  ⟨renderDecAux (n + 1) n⟩

/-- Decimal parsing: left inverse of `renderDec`. -/
def parseDec (l : List Char) : Nat :=
  l.foldl (fun a c => 10 * a + (c.toNat - 48)) 0

theorem digitChar_val (m : Nat) (h : m < 10) : (Nat.digitChar m).toNat - 48 = m := by
  interval_cases m <;> rfl

theorem parseDec_append_digit (l : List Char) (c : Char) :
    parseDec (l ++ [c]) = 10 * parseDec l + (c.toNat - 48) := by
  simp [parseDec, List.foldl_append]

theorem parseDec_renderDecAux (fuel n : Nat) (h : n < fuel) :
    parseDec (renderDecAux fuel n) = n := by
  induction fuel generalizing n with
  | zero => omega
  | succ fuel ih =>
    rw [renderDecAux]
    by_cases h10 : n < 10
    · simp only [h10, if_true]
      show 10 * 0 + ((Nat.digitChar n).toNat - 48) = n
      rw [digitChar_val n h10]
      omega
    · simp only [h10, if_false]
      rw [parseDec_append_digit, ih (n / 10) (by omega),
        digitChar_val (n % 10) (by omega)]
      omega

theorem parseDec_renderDec (n : Nat) : parseDec (renderDec n).data = n :=
  parseDec_renderDecAux (n + 1) n (Nat.lt_succ_self n)

theorem renderDec_injective : Function.Injective renderDec := by
  intro a b h
  have := congrArg (fun s => parseDec s.data) h
  simpa [parseDec_renderDec] using this

/-! ### Python string primitives

Python string operations act on code points, so they are embedded as
structural functions over `String.data` (Lean's own `String.trim`,
`String.toUpper`, … are byte-position based and recurse by well-founded
measures, which would block concrete evaluation). -/

/-- Python `str.strip()`. -/
def py_strip (s : String) : String :=
  ⟨(((s.data.dropWhile Char.isWhitespace).reverse).dropWhile
    Char.isWhitespace).reverse⟩

/-- Python `str.upper()`. -/
def py_upper (s : String) : String := ⟨s.data.map Char.toUpper⟩

/-- Python `str.lower()`. -/
def py_lower (s : String) : String := ⟨s.data.map Char.toLower⟩

/-- Python slicing `s[:n]`. -/
def py_take (n : Nat) (s : String) : String := ⟨s.data.take n⟩

/-- Auxiliary: does `pat` occur as a contiguous run inside `l`? -/
def contains_sub : List Char → List Char → Bool
  | [], pat => pat.isPrefixOf []
  | c :: rest, pat => pat.isPrefixOf (c :: rest) || contains_sub rest pat

/-- Python `pat in s` on strings. -/
def str_contains (s pat : String) : Bool := contains_sub s.data pat.data

/-- Python `sep.join(parts)`. -/
def py_join (sep : String) : List String → String
  | [] => ""
  | [x] => x
  | x :: y :: xs => x ++ sep ++ py_join sep (y :: xs)

/-! ### `memory/validators.py` -/

/-- Embedding of `validate_embedding` (validators.py, lines 10-44).
Entries are typed `PyFloat`, so the `isinstance` branch of the source
loop cannot fire; the empty, dimension and NaN/Inf checks are kept in
source order. -/
def validate_embedding (embedding : List PyFloat) (expected_dim : Nat) :
    Except String Unit :=
  if embedding = [] then .error "Embedding cannot be empty"
  else if embedding.length ≠ expected_dim then
    .error "Embedding dimension mismatch"
  else if embedding.any (fun v => ¬ v.isFinite) then
    .error "Embedding value is NaN or Inf"
  else .ok ()

/-- Embedding of `validate_intervention_data` (validators.py, lines
47-95).  The unknown-outcome branch of the source only logs a warning
and rejects nothing, so it contributes no failure case here. -/
def validate_intervention_data (intervention_text context task
    outcome : String) (embedding : Option (List PyFloat)) :
    Except String Unit :=
  if py_strip intervention_text = "" then
    .error "intervention_text cannot be empty"
  else if intervention_text.length > 1000 then
    .error "intervention_text too long"
  else if py_strip context = "" then .error "context cannot be empty"
  else if context.length > 2000 then .error "context too long"
  else if py_strip task = "" then .error "task cannot be empty"
  else
    match embedding with
    | some e => validate_embedding e 768
    | none => .ok ()

/-! ### `memory/redis_memory.py`: the store model

Redis is modelled as an association list of entries `key ↦ (value,
ttl)`.  `JSON.SET` overwrites the value under an existing key and
appends otherwise; `EXPIRE` updates the ttl of an existing key. -/

/-- One intervention record as written by `record_intervention`. -/
structure InterventionData where
  intervention : String
  context : String
  task : String
  outcome : String
  timestamp : ℚ
  embedding : List PyFloat
  deriving DecidableEq, Repr

/-- One reflection record as written by `store_reflection`. -/
structure ReflectionData where
  insight : String
  session_summary : String
  timestamp : String
  deriving DecidableEq, Repr

/-- A JSON document stored in Redis. -/
inductive RecordVal where
  | interv (d : InterventionData)
  | refl (r : ReflectionData)
  deriving DecidableEq, Repr

/-- One Redis entry: key, JSON value, ttl in seconds (0 = none yet). -/
structure RedisEntry where
  key : String
  val : RecordVal
  ttl : Nat
  deriving DecidableEq, Repr

abbrev RedisStore := List RedisEntry

/-- Redis `client.json().set(key, "$", data)`: overwrite or append. -/
def json_set (store : RedisStore) (k : String) (v : RecordVal) :
    RedisStore :=
  if store.any (fun e => e.key = k) then
    store.map (fun e => if e.key = k then { e with val := v } else e)
  else store ++ [⟨k, v, 0⟩]

/-- Redis `client.expire(key, seconds)`. -/
def redis_expire (store : RedisStore) (k : String) (t : Nat) :
    RedisStore :=
  store.map (fun e => if e.key = k then { e with ttl := t } else e)

/-- The key pattern `user:{user_id}:intervention:` / `...reflection:`
with the trailing `*` of `scan_iter` handled by prefix matching. -/
def key_pattern (user_id kind : String) : String :=
  "user:" ++ user_id ++ ":" ++ kind ++ ":"

/-- Whether a key matches a `scan_iter` pattern `pat*`. -/
def key_matches (pat k : String) : Bool :=
  pat.data.isPrefixOf k.data

/-- Number of live keys matching a pattern, as counted by
`len(list(self.client.scan_iter(pattern, ...)))`. -/
def count_keys (store : RedisStore) (pat : String) : Nat :=
  (store.filter (fun e => key_matches pat e.key)).length

/-- The key built by `record_intervention` (redis_memory.py line 97):
`f"user:{self.user_id}:intervention:{timestamp_ms}"`. -/
def intervention_key (user_id : String) (timestamp_ms : Nat) : String :=
  key_pattern user_id "intervention" ++ renderDec timestamp_ms

/-- The key built by `store_reflection` (redis_memory.py line 187). -/
def reflection_key (user_id : String) (timestamp_ms : Nat) : String :=
  key_pattern user_id "reflection" ++ renderDec timestamp_ms

/-- Embedding of `RedisUserMemory.record_intervention` (redis_memory.py,
lines 75-118).  `timestamp_ms` and `now_s` stand for the two
`datetime.now()` reads; `client_ok` models whether the Redis write
raises.  Faithful to the source, NO validation is performed before the
write: the function goes straight from building `data` to
`json().set`, and a write failure is printed and re-raised. -/
def record_intervention (store : RedisStore) (user_id : String)
    (timestamp_ms : Nat) (now_s : ℚ)
    (intervention_text context task outcome : String)
    (embedding : List PyFloat) (client_ok : Bool) :
    Except String (String × RedisStore) :=
  let key := intervention_key user_id timestamp_ms
  let data : InterventionData :=
    ⟨intervention_text, context, task, outcome, now_s, embedding⟩
  if client_ok then
    .ok (key, redis_expire (json_set store key (.interv data)) key
      (60 * 60 * 24 * 30))
  else .error "Error storing intervention"

/-- Embedding of `RedisUserMemory.store_reflection` (redis_memory.py,
lines 178-200): truncates the summary to 500 characters, writes with a
90-day ttl, and swallows client failures (logged, not raised). -/
def store_reflection (store : RedisStore) (user_id : String)
    (timestamp_ms : Nat) (now_iso : String)
    (insight session_summary : String) (client_ok : Bool) : RedisStore :=
  let key := reflection_key user_id timestamp_ms
  let data : ReflectionData :=
    ⟨insight, py_take 500 session_summary, now_iso⟩
  if client_ok then
    redis_expire (json_set store key (.refl data)) key (60 * 60 * 24 * 90)
  else store

/-- The dictionary returned by `get_stats`. -/
structure UserStats where
  user_id : String
  total_interventions : Nat
  total_reflections : Nat
  deriving DecidableEq, Repr

/-- Embedding of `RedisUserMemory.get_stats` (redis_memory.py, lines
265-286).  `scan` is the outcome of reaching the store through the
client: the whole body is inside `try`, and any failure yields the
zeroed dictionary. -/
def get_stats (user_id : String) (scan : Except String RedisStore) :
    UserStats :=
  match scan with
  | .ok store =>
    ⟨user_id, count_keys store (key_pattern user_id "intervention"),
      count_keys store (key_pattern user_id "reflection")⟩
  | .error _ => ⟨user_id, 0, 0⟩

/-! ### `memory/redis_memory.py`: vector retrieval

The vector index is external (spec §1 non-goals treats it as an engine
behind a KNN query contract), so the search call is a parameter: given
the filter string and `k` it returns either the matched documents with
their cosine distances, or an error.  Errors stand for connection
failures, query failures and malformed stored data alike — in the
source all of these raise inside the single `try` of
`find_similar_interventions`. -/

/-- A document returned by `FT.SEARCH`, with the fields requested by
`return_fields("intervention", "context", "outcome", "task",
"distance")`. -/
structure SearchDoc where
  intervention : String
  context : String
  outcome : String
  task : String
  distance : ℚ
  deriving DecidableEq, Repr

/-- One element of the list returned by `find_similar_interventions`. -/
structure SimilarResult where
  intervention : String
  context : String
  outcome : String
  task : String
  similarity : ℚ
  deriving DecidableEq, Repr

/-- The filter string built in redis_memory.py lines 142-145. -/
def build_filter (successful_only : Bool) : String :=
  if successful_only then "@outcome:\x7btask_completed|re_engaged\x7d"
  else "*"

/-- The per-document transformation of redis_memory.py lines 162-169:
`similarity = 1 - float(doc.distance)`. -/
def to_similar (doc : SearchDoc) : SimilarResult :=
  ⟨doc.intervention, doc.context, doc.outcome, doc.task,
    1 - doc.distance⟩

/-- Embedding of `RedisUserMemory.find_similar_interventions`
(redis_memory.py, lines 120-176).  `search` is the external engine: it
receives the filter string and `k` (the query built on line 148 embeds
both) and yields documents sorted by the engine, or fails.  The whole
body is wrapped in `try`, and any error resolves to `[]`. -/
def find_similar_interventions
    (search : String → Nat → Except String (List SearchDoc))
    (k : Nat) (successful_only : Bool) : List SimilarResult :=
  match search (build_filter successful_only) k with
  | .ok docs => docs.map to_similar
  | .error _ => []

/-! ### `get_dynamic_context`

`RedisUserMemory.get_dynamic_context` is called from
`voice/gemini_live.py` and exercised by three test files, but its
definition is not present in the source tree. -/

/-- Modelled from the spec: the formatted block produced by
`get_dynamic_context`, missing from the source tree.  Per §4.2 "Each
included example states the prior context, the intervention taken, and
the outcome"; the tests count occurrences of the word `Example`. -/
def format_dynamic_context (results : List SimilarResult) : String :=
  "Similar past successful interventions:\n" ++
    String.join ((results.enum).map (fun p =>
      "Example " ++ renderDec (p.1 + 1) ++ " - Context: " ++
        p.2.context ++ " | Intervention: " ++ p.2.intervention ++
        " | Outcome: " ++ p.2.outcome ++ "\n"))

/-- Modelled from the spec: `RedisUserMemory.get_dynamic_context`,
whose definition is missing from the source tree (only callers and
tests exist).  Per §4.2 it embeds the query, calls
`find_similar(embedding, k, successful_only=True)`, and returns a
formatted block of up to `k` examples only if the top-ranked result's
similarity exceeds the 0.7 acceptance threshold; otherwise it returns
empty.  The query embedding step is internal to `search`, which is the
engine applied to the query's embedding. -/
def get_dynamic_context
    (search : String → Nat → Except String (List SearchDoc))
    (k : Nat) : String :=
  match find_similar_interventions search k true with
  | [] => ""
  | top :: rest =>
    if 7 / 10 < top.similarity then
      format_dynamic_context (top :: rest)
    else ""

/-- Modelled from the spec: the examples included in the block that
`get_dynamic_context` (missing from the source tree) returns — the
same selection as `get_dynamic_context`, exposed as a list so the
"up to `k` examples" count can be stated. -/
def dynamic_context_examples
    (search : String → Nat → Except String (List SearchDoc))
    (k : Nat) : List SimilarResult :=
  match find_similar_interventions search k true with
  | [] => []
  | top :: rest =>
    if 7 / 10 < top.similarity then top :: rest else []

/-! ### `memory/reflection.py` -/

/-- One transcript message as consumed by `generate_reflection`. -/
structure TranscriptMsg where
  role : String
  content : String
  deriving DecidableEq, Repr

/-- The transcript formatting of reflection.py lines 41-46: keep the
last 20 messages and join `"{ROLE}: {content}"` lines. -/
def format_transcript (transcript : List TranscriptMsg) : String :=
  let transcript_messages :=
    if transcript.length > 20 then
      transcript.drop (transcript.length - 20)
    else transcript
  py_join "\n" (transcript_messages.map (fun msg =>
    py_upper msg.role ++ ": " ++ msg.content))

/-- The fixed fallback insight of reflection.py line 87. -/
def default_insight : String :=
  "Session completed. Continue monitoring user patterns and preferences."

/-- Embedding of `generate_reflection` (reflection.py, lines 25-87).
`summarize` is the outcome of the external Gemini summarization call;
`timestamp_ms`/`now_iso` stand for the clock reads inside
`store_reflection`, and `client_ok` for the Redis write outcome.
On success the stripped response text is stored via `store_reflection`
and returned; on any failure the fixed default insight is returned —
and, faithful to the source, nothing is stored (the `store_reflection`
call sits inside the `try`, after the summarization call). -/
def generate_reflection (summarize : Except String String)
    (store : RedisStore) (user_id : String) (timestamp_ms : Nat)
    (now_iso : String) (transcript : List TranscriptMsg)
    (client_ok : Bool) : String × RedisStore :=
  let transcript_str := format_transcript transcript
  match summarize with
  | .ok text =>
    let insight := py_strip text
    (insight, store_reflection store user_id timestamp_ms now_iso
      insight transcript_str client_ok)
  | .error _ => (default_insight, store)

/-! ### `memory/retry.py`

`RetryConfig`/`retry_async` exist in the source but — as the theorems
below document — no store or index operation applies them.  (The module
also references `redis.ConnectionError` in the default configuration
without importing `redis`, so constructing the default config would
raise `NameError`; that Python-level slip is outside this embedding.)
The attempt sequence of the wrapped operation is a parameter
`op : Nat → Except ε α` (result of attempt number `n`, 1-based), and
the retryability test on the raised exception is `retryable`. -/

/-- Embedding of `RetryConfig` (retry.py, lines 15-44), numeric fields
only; the exception tuple is the `retryable` parameter below. -/
structure RetryConfig where
  max_attempts : Nat
  initial_delay : ℚ
  max_delay : ℚ
  exponential_base : ℚ
  deriving DecidableEq, Repr

/-- The source's default configuration: 3 attempts, 0.1 s initial delay,
2.0 s cap, base 2. -/
def default_retry_config : RetryConfig := ⟨3, 1 / 10, 2, 2⟩

/-- The delay computed on retry.py lines 89-92:
`min(initial_delay * exponential_base ** (attempt - 1), max_delay)`. -/
def backoff_delay (cfg : RetryConfig) (attempt : Nat) : ℚ :=
  min (cfg.initial_delay * cfg.exponential_base ^ (attempt - 1))
    cfg.max_delay

/-- The attempt loop of `retry_async` (retry.py, lines 62-100).
`fuel` counts the attempts still allowed after the current one, so the
top-level call uses `max_attempts - 1`; the returned triple is the
final outcome, the number of the last attempt made, and the list of
back-off delays slept. -/
def retry_async_go {ε α : Type} (retryable : ε → Bool)
    (op : Nat → Except ε α) (cfg : RetryConfig) :
    Nat → Nat → Except ε α × Nat × List ℚ
  | attempt, fuel =>
    match op attempt with
    | .ok a => (.ok a, attempt, [])
    | .error e =>
      if retryable e = false then (.error e, attempt, [])
      else
        match fuel with
        | 0 => (.error e, attempt, [])
        | fuel' + 1 =>
          let d := backoff_delay cfg attempt
          let r := retry_async_go retryable op cfg (attempt + 1) fuel'
          (r.1, r.2.1, d :: r.2.2)

/-- Embedding of the `retry_async` decorator's wrapper (retry.py,
lines 47-108): run the operation starting at attempt 1 with at most
`max_attempts` attempts. -/
def retry_async {ε α : Type} (cfg : RetryConfig) (retryable : ε → Bool)
    (op : Nat → Except ε α) : Except ε α × Nat × List ℚ :=
  retry_async_go retryable op cfg 1 (cfg.max_attempts - 1)

/-! ### `voice/gemini_live.py`: the context injector

The client state keeps exactly the attributes that the injection logic
reads or writes; the conversation context (`state/context.py`) is the
message list.  `retrieval` stands for `memory.get_dynamic_context`
composed with its embedding step — a total function, since
`get_dynamic_context` resolves its own failures to the empty string. -/

/-- The injection-relevant state of `GeminiLiveClient`. -/
structure ClientState where
  has_memory : Bool
  has_session : Bool
  last_user_message_for_context : Option String
  dynamic_context_cache : Option String
  last_assistant_response : Option String
  turn_count : Nat
  messages : List TranscriptMsg
  deriving DecidableEq, Repr

/-- State right after `__init__`/`connect`. -/
def initial_client_state (has_memory has_session : Bool) : ClientState :=
  ⟨has_memory, has_session, none, none, none, 0, []⟩

/-- Embedding of `GeminiLiveClient._load_dynamic_context`
(gemini_live.py, lines 136-164).  Returns whether a retrieval call was
issued, and the updated state. -/
def load_dynamic_context (retrieval : String → String)
    (s : ClientState) (user_message : String) : Bool × ClientState :=
  if s.has_memory = false ∨ user_message = "" ∨
      (py_strip user_message).length < 10 then
    (false, { s with dynamic_context_cache := none })
  else if s.last_user_message_for_context = some user_message then
    (false, s)
  else
    (true, { s with
      dynamic_context_cache := some (retrieval user_message),
      last_user_message_for_context := some user_message })

/-- The wrapper built in `send_text` (gemini_live.py, lines 570-579)
when a dynamic context is cached. -/
def wrap_with_context (cache text : String) : String :=
  "Additional context from similar past successful interventions:\n" ++
    cache ++ "\n\n---\nUser message: " ++ text

/-- Embedding of `GeminiLiveClient.send_text` (gemini_live.py, lines
551-589): records the user message, loads dynamic context for it, and
sends either the plain text or the context-wrapped text.  Returns
(retrieval issued, new state, message sent — `none` when there is no
session). -/
def send_text (retrieval : String → String) (s : ClientState)
    (text : String) : Bool × ClientState × Option String :=
  if s.has_session = false then (false, s, none)
  else
    let s1 := { s with messages := s.messages ++ [⟨"user", text⟩] }
    let r := load_dynamic_context retrieval s1 text
    let message_text :=
      match r.2.dynamic_context_cache with
      | some c => if c = "" then text else wrap_with_context c text
      | none => text
    (r.1, r.2, some message_text)

/-- The apostrophe character, for the keyword vocabulary below. -/
def apos : Char := Char.ofNat 39

/-- The keyword vocabulary scanned on gemini_live.py lines 204-205
(the fifth entry is the contraction of "can not"). -/
def intent_keywords : List String :=
  ["focus", "overwhelm", "task", "help",
    String.mk ['c', 'a', 'n', apos, 't'], "need", "stuck", "difficult"]

/-- Python `any(keyword in content.lower() for keyword in [...])`. -/
def contains_keyword (content : String) : Bool :=
  intent_keywords.any (fun kw => str_contains (py_lower content) kw)

/-- The query derivation of
`GeminiLiveClient._prepare_and_inject_dynamic_context`
(gemini_live.py, lines 181-214): user messages among the last six,
else the first 200 characters of the last assistant response; plus any
keyword-bearing contents of the last two messages; the derived query is
the join of the last collected part, or `none` when nothing was
collected. -/
def infer_query (s : ClientState) : Option String :=
  let recent_messages := s.messages.drop (s.messages.length - 6)
  let user_parts := (recent_messages.filter
    (fun m => m.role = "user")).map (fun m => m.content)
  let base_parts :=
    if user_parts = [] then
      match s.last_assistant_response with
      | some t => [py_take 200 t]
      | none => []
    else user_parts
  let query_parts := base_parts ++
    (if recent_messages = [] then []
     else ((recent_messages.drop (recent_messages.length - 2)).filter
       (fun m => contains_keyword m.content)).map (fun m => m.content))
  if query_parts = [] then none
  else some (py_join " "
    (query_parts.drop (query_parts.length - 1)))

/-- The `<memory_context>` priming message of gemini_live.py lines
225-229. -/
def memory_wrap (ctx : String) : String :=
  "<memory_context>\n" ++ ctx ++
    "\n\nUse these similar past successful interventions as reference for your responses.\n</memory_context>"

/-- Embedding of
`GeminiLiveClient._prepare_and_inject_dynamic_context`
(gemini_live.py, lines 166-246).  Returns whether a retrieval call was
issued and the priming message sent (if any).  Faithful to the source,
the function records nothing about the query it used: no attribute is
updated, so the client state is unchanged by construction. -/
def prepare_and_inject (retrieval : String → String)
    (s : ClientState) : Bool × Option String :=
  if s.has_memory = false ∨ s.has_session = false then (false, none)
  else
    match infer_query s with
    | none => (false, none)
    | some q =>
      if (py_strip q).length < 10 then (false, none)
      else
        let ctx := retrieval q
        if ctx = "" then (true, none)
        else (true, some (memory_wrap ctx))

/-- The three kinds of session activity that touch the injector:
an outgoing user text (`send_text`), an assistant text part, and a
`turn_complete` signal (both in `receive_responses`). -/
inductive SessionEvent where
  | userText (t : String)
  | assistantText (t : String)
  | turnComplete
  deriving DecidableEq, Repr

/-- One step of the session loop, returning the new client state and
whether the event issued a retrieval call.  Mirrors
`receive_responses` (gemini_live.py, lines 591-641): an assistant text
part appends to the context, updates `_last_assistant_response`, and
schedules `_prepare_and_inject_dynamic_context` only when memory is
present and `_turn_count > 0`; `turn_complete` increments
`_turn_count`; a user text goes through `send_text`. -/
def session_step (retrieval : String → String) (s : ClientState) :
    SessionEvent → ClientState × Bool
  | .userText t => let r := send_text retrieval s t; (r.2.1, r.1)
  | .assistantText t =>
    let s1 := { s with
      messages := s.messages ++ [⟨"assistant", t⟩],
      last_assistant_response := some t }
    let scheduled := s1.has_memory && decide (0 < s1.turn_count)
    (s1, scheduled && (prepare_and_inject retrieval s1).1)
  | .turnComplete => ({ s with turn_count := s.turn_count + 1 }, false)

/-- Run a list of session events, collecting the per-event retrieval
flags. -/
def run_session (retrieval : String → String) (s : ClientState) :
    List SessionEvent → ClientState × List Bool
  | [] => (s, [])
  | e :: es =>
    let r := session_step retrieval s e
    let rest := run_session retrieval r.1 es
    (rest.1, r.2 :: rest.2)

/-! ## Claim theorems -/

/-- A well-formed 768-dimensional embedding (all entries finite). -/
def c1_embedding : List PyFloat :=
  List.replicate 768 (PyFloat.finite (1 / 10))

/-- The store produced by the C1 write below. -/
def c1_store : RedisStore :=
  [⟨"user:u1:intervention:1700",
    .interv ⟨"", "test", "test", "task_completed", 0, c1_embedding⟩,
    2592000⟩]

/-- C1: the claim says `record_intervention` raises `ValidationError`
before any write on invalid input (here: empty `intervention_text`)
and leaves the stored counts unchanged.  The repository's validator
does reject this input — but `record_intervention` never calls it: at
the very same input the write goes through, a key is returned, and
`get_stats` reports one more stored intervention.  This contradicts the
repository's own test
`test_record_intervention_validation_error`, so the code, not the
claim, is wrong. -/
theorem C1_record_intervention_skips_validation :
    validate_intervention_data "" "test" "test" "task_completed"
      (some c1_embedding) = .error "intervention_text cannot be empty"
    ∧ record_intervention [] "u1" 1700 0 "" "test" "test"
        "task_completed" c1_embedding true
      = .ok ("user:u1:intervention:1700", c1_store)
    ∧ (get_stats "u1" (.ok [])).total_interventions = 0
    ∧ (get_stats "u1" (.ok c1_store)).total_interventions = 1 :=
  ⟨rfl, rfl, rfl, rfl⟩

/-- C2 counterexample: with a failing summarization call and an empty
store, `generate_reflection` returns exactly the default insight but
the store stays empty — no Reflection record is persisted, refuting
"that default insight is still persisted as one Reflection record via
store_reflection". -/
theorem C2_default_insight_not_stored :
    generate_reflection (.error "API error") [] "u1" 1000 "t0"
      [⟨"user", "hello"⟩] true = (default_insight, [])
    ∧ (get_stats "u1"
        (.ok (generate_reflection (.error "API error") [] "u1" 1000 "t0"
          [⟨"user", "hello"⟩] true).2)).total_reflections = 0 :=
  ⟨rfl, rfl⟩

/-- C2 (amended): if the summarization call inside
`generate_reflection` fails, the function returns exactly the default
insight string and stores nothing — the store is returned unchanged;
an insight is persisted via `store_reflection` only when summarization
succeeds, and then it is the stripped response text. -/
theorem C2_reflection_default_not_persisted :
    (∀ (e : String) (store : RedisStore) (uid : String) (ts : Nat)
      (iso : String) (tr : List TranscriptMsg) (ok : Bool),
      generate_reflection (.error e) store uid ts iso tr ok =
        (default_insight, store)) ∧
    (∀ (s : String) (store : RedisStore) (uid : String) (ts : Nat)
      (iso : String) (tr : List TranscriptMsg) (ok : Bool),
      generate_reflection (.ok s) store uid ts iso tr ok =
        (py_strip s,
          store_reflection store uid ts iso (py_strip s)
            (format_transcript tr) ok)) :=
  ⟨fun _ _ _ _ _ _ _ => rfl, fun _ _ _ _ _ _ _ => rfl⟩

/-- C6: whenever the engine call inside `find_similar_interventions`
fails — connection error, query error, or the malformed-data cases
that raise while the result docs are read — the function returns the
empty list; no failure escapes to the caller. -/
theorem C6_retrieval_failure_empty
    (search : String → Nat → Except String (List SearchDoc))
    (k : Nat) (successful_only : Bool) (e : String)
    (h : search (build_filter successful_only) k = .error e) :
    find_similar_interventions search k successful_only = [] := by
  simp [find_similar_interventions, h]

/-- C6 witness: a search that fails with a connection error yields the
empty result list. -/
theorem C6_retrieval_failure_empty_witness :
    find_similar_interventions
      (fun _ _ => .error "Connection reset by peer") 3 true = [] :=
  C6_retrieval_failure_empty _ 3 true "Connection reset by peer" rfl

/-- C10: `get_stats` is a total function of the scan outcome; on any
store or connection failure it returns the dictionary with the user id
and zero counts — exactly what it returns for an empty store, so a
storage failure is indistinguishable from an empty store at this
interface. -/
theorem C10_get_stats_never_raises (user_id e : String) :
    get_stats user_id (.error e) = ⟨user_id, 0, 0⟩
    ∧ get_stats user_id (.error e) = get_stats user_id (.ok []) := by
  constructor
  · rfl
  · simp [get_stats, count_keys]

/-! ### C5: ranking and range of similarity scores -/

/-- Dot product of two rational vectors. -/
def dot (u v : List ℚ) : ℚ := (List.zipWith (fun a b => a * b) u v).sum

/-- Squared Euclidean norm. -/
def normSq (u : List ℚ) : ℚ := dot u u

/-- Cosine distance (`1 - cos`) of two UNIT vectors, for which the
cosine is just the dot product. -/
def cosine_distance_unit (u v : List ℚ) : ℚ := 1 - dot u v

theorem zip_mul_replicate_zero (n : Nat) :
    (List.zipWith (fun a b : ℚ => a * b) (List.replicate n 0)
      (List.replicate n 0)).sum = 0 := by
  induction n with
  | zero => simp
  | succ n ih => simp [List.replicate_succ, ih]

/-- A 768-dimensional unit vector. -/
def c5_e : List ℚ := 1 :: List.replicate 767 0

/-- The opposite 768-dimensional unit vector. -/
def c5_f : List ℚ := (-1) :: List.replicate 767 0

/-- C5 counterexample: the cosine distance of two legitimate
768-dimensional unit embeddings can be `2` (opposite vectors), and a
document returned at that distance — which satisfies the cosine-metric
contract `0 ≤ d ≤ 2` — comes out of `find_similar_interventions` with
similarity `1 - 2 = -1`, outside `[0, 1]`.  The source converts without
clamping, so "similarity lies in [0,1]" is false. -/
theorem c5_dot_ee : dot c5_e c5_e = 1 := by
  rw [c5_e, dot, List.zipWith_cons_cons, List.sum_cons,
    zip_mul_replicate_zero]
  norm_num

theorem c5_dot_ff : dot c5_f c5_f = 1 := by
  rw [c5_f, dot, List.zipWith_cons_cons, List.sum_cons,
    zip_mul_replicate_zero]
  norm_num

theorem c5_dot_ef : dot c5_e c5_f = -1 := by
  rw [c5_e, c5_f, dot, List.zipWith_cons_cons, List.sum_cons,
    zip_mul_replicate_zero]
  norm_num

theorem C5_similarity_outside_unit_interval :
    normSq c5_e = 1 ∧ normSq c5_f = 1
    ∧ cosine_distance_unit c5_e c5_f = 2
    ∧ (0 : ℚ) ≤ 2 ∧ (2 : ℚ) ≤ 2
    ∧ find_similar_interventions
        (fun _ _ => .ok [⟨"i", "c", "task_completed", "t", 2⟩]) 5 true
      = [⟨"i", "c", "task_completed", "t", -1⟩]
    ∧ ((-1 : ℚ) < 0) := by
  refine ⟨?_, ?_, ?_, by norm_num, by norm_num, ?_, by norm_num⟩
  · rw [normSq]; exact c5_dot_ee
  · rw [normSq]; exact c5_dot_ff
  · rw [cosine_distance_unit, c5_dot_ef]; norm_num
  · simp [find_similar_interventions, to_similar]
    norm_num

/-- C5 (amended): under the engine contract — at most `k` documents,
cosine distances in `[0, 2]`, sorted by ascending distance — the
results of `find_similar_interventions` number at most `k`, each
similarity equals `1 -` the document's cosine distance and lies in
`[-1, 1]` (not `[0, 1]`: the code does not clamp), and the results are
sorted by non-increasing similarity. -/
theorem C5_find_similar_ranked
    (search : String → Nat → Except String (List SearchDoc))
    (k : Nat) (successful_only : Bool) (docs : List SearchDoc)
    (h : search (build_filter successful_only) k = .ok docs)
    (hlen : docs.length ≤ k)
    (hsort : docs.Chain' (fun a b => a.distance ≤ b.distance))
    (hrange : ∀ d ∈ docs, 0 ≤ d.distance ∧ d.distance ≤ 2) :
    (find_similar_interventions search k successful_only).length ≤ k
    ∧ (find_similar_interventions search k successful_only).map
        (fun r => r.similarity) = docs.map (fun d => 1 - d.distance)
    ∧ (∀ r ∈ find_similar_interventions search k successful_only,
        -1 ≤ r.similarity ∧ r.similarity ≤ 1)
    ∧ (find_similar_interventions search k successful_only).Chain'
        (fun a b => b.similarity ≤ a.similarity) := by
  have hres : find_similar_interventions search k successful_only =
      docs.map to_similar := by
    simp [find_similar_interventions, h]
  refine ⟨?_, ?_, ?_, ?_⟩ <;> rw [hres]
  · simpa using hlen
  · simp [to_similar]
  · intro r hr
    rw [List.mem_map] at hr
    obtain ⟨d, hd, rfl⟩ := hr
    have hb := hrange d hd
    constructor <;> simp [to_similar] <;> linarith [hb.1, hb.2]
  · rw [List.chain'_map]
    refine hsort.imp ?_
    intro a b hab
    simp only [to_similar]
    linarith

/-- The documents used by the C5 witness. -/
def c5_docs : List SearchDoc :=
  [⟨"a", "c1", "task_completed", "t", 1 / 10⟩,
    ⟨"b", "c2", "re_engaged", "t", 3 / 10⟩]

/-- The search engine used by the C5 witness. -/
def c5_search : String → Nat → Except String (List SearchDoc) :=
  fun _ _ => .ok c5_docs

/-- C5 witness: the amended theorem applied to a concrete two-document
engine answer with distances 0.1 and 0.3 and `k = 3`. -/
theorem C5_find_similar_ranked_witness :
    (find_similar_interventions c5_search 3 true).length ≤ 3
    ∧ (find_similar_interventions c5_search 3 true).map
        (fun r => r.similarity) = c5_docs.map (fun d => 1 - d.distance)
    ∧ (∀ r ∈ find_similar_interventions c5_search 3 true,
        -1 ≤ r.similarity ∧ r.similarity ≤ 1)
    ∧ (find_similar_interventions c5_search 3 true).Chain'
        (fun a b => b.similarity ≤ a.similarity) :=
  C5_find_similar_ranked c5_search 3 true c5_docs rfl
    (by norm_num [c5_docs])
    (by norm_num [c5_docs, List.chain'_cons, List.chain'_singleton])
    (by norm_num [c5_docs])

/-! ### C3: the dynamic-context acceptance threshold -/

theorem format_dynamic_context_ne_empty (rs : List SimilarResult) :
    format_dynamic_context rs ≠ "" := by
  intro hc
  have h2 := congrArg String.length hc
  rw [format_dynamic_context, String.length_append] at h2
  have h3 : ("Similar past successful interventions:\n").length = 39 :=
    rfl
  rw [h3] at h2
  simp at h2

/-- C3: assuming the engine honours the KNN `k` bound, the (spec-
modelled) `get_dynamic_context` returns a non-empty formatted block
if and only if the top-ranked `find_similar_interventions` result has
similarity strictly above 0.7, and the block contains at most `k`
examples. -/
theorem C3_dynamic_context_threshold
    (search : String → Nat → Except String (List SearchDoc))
    (k : Nat) (docs : List SearchDoc)
    (h : search (build_filter true) k = .ok docs)
    (hlen : docs.length ≤ k) :
    (get_dynamic_context search k ≠ "" ↔
      ∃ top rest,
        find_similar_interventions search k true = top :: rest
        ∧ 7 / 10 < top.similarity)
    ∧ (dynamic_context_examples search k).length ≤ k := by
  have hres : find_similar_interventions search k true =
      docs.map to_similar := by
    simp [find_similar_interventions, h]
  constructor
  · constructor
    · intro hne
      rcases hmatch : find_similar_interventions search k true with
        _ | ⟨top, rest⟩
      · rw [get_dynamic_context, hmatch] at hne
        simp at hne
      · by_cases hsim : 7 / 10 < top.similarity
        · exact ⟨top, rest, rfl, hsim⟩
        · rw [get_dynamic_context, hmatch] at hne
          simp [hsim] at hne
    · rintro ⟨top, rest, hmatch, hsim⟩
      rw [get_dynamic_context, hmatch]
      simp only [hsim, if_true]
      exact format_dynamic_context_ne_empty _
  · rw [dynamic_context_examples, hres]
    cases docs with
    | nil => simp
    | cons d ds =>
      simp only [List.map_cons]
      split
      · simpa using hlen
      · simp

/-- The engine used by the C3 witness: one successful document at
cosine distance 0.2, i.e. similarity 0.8 > 0.7. -/
def c3_search : String → Nat → Except String (List SearchDoc) :=
  fun _ _ =>
    .ok [⟨"Used create_microsteps", "I cannot focus on my homework",
      "task_completed", "homework", 1 / 5⟩]

/-- C3 witness: the theorem applied to the concrete one-document
engine with `k = 3`. -/
theorem C3_dynamic_context_threshold_witness :
    (get_dynamic_context c3_search 3 ≠ "" ↔
      ∃ top rest,
        find_similar_interventions c3_search 3 true = top :: rest
        ∧ 7 / 10 < top.similarity)
    ∧ (dynamic_context_examples c3_search 3).length ≤ 3 :=
  C3_dynamic_context_threshold c3_search 3 _ rfl (by decide)

/-! ### C4: key uniqueness across writers -/

/-- The store after the first C4 write. -/
def c4_store_a : RedisStore :=
  [⟨"user:u1:intervention:1000",
    .interv ⟨"step A", "ctx", "general", "task_completed", 0, []⟩,
    2592000⟩]

/-- The store after the second C4 write: the same key, overwritten. -/
def c4_store_b : RedisStore :=
  [⟨"user:u1:intervention:1000",
    .interv ⟨"step B", "ctx", "general", "task_completed", 0, []⟩,
    2592000⟩]

/-- C4 counterexample: two successful `record_intervention` calls for
the same user within the same wall-clock millisecond (the source reads
`datetime.now()` — nothing else differentiates the key) return the
SAME key, and the second write overwrites the first: afterwards only
one record exists.  This refutes both "the two returned keys are
distinct" and "no two writers race on the same record". -/
theorem C4_same_millisecond_key_collision :
    record_intervention [] "u1" 1000 0 "step A" "ctx" "general"
      "task_completed" [] true
      = .ok ("user:u1:intervention:1000", c4_store_a)
    ∧ record_intervention c4_store_a "u1" 1000 0 "step B" "ctx"
        "general" "task_completed" [] true
      = .ok ("user:u1:intervention:1000", c4_store_b)
    ∧ count_keys c4_store_b (key_pattern "u1" "intervention") = 1 :=
  ⟨rfl, rfl, rfl⟩

theorem intervention_key_inj (uid : String) {t1 t2 : Nat}
    (h : intervention_key uid t1 = intervention_key uid t2) :
    t1 = t2 := by
  have hd := congrArg String.data h
  rw [intervention_key, intervention_key, String.data_append,
    String.data_append] at hd
  have hr := List.append_cancel_left hd
  have hp := congrArg parseDec hr
  rwa [parseDec_renderDec, parseDec_renderDec] at hp

theorem key_matches_own_pattern (uid kind : String) (t : Nat) :
    key_matches (key_pattern uid kind)
      (key_pattern uid kind ++ renderDec t) = true := by
  rw [key_matches, String.data_append]
  exact Iff.mpr List.isPrefixOf_iff_prefix (List.prefix_append _ _)

/-- C4 (amended): the key embeds the wall-clock millisecond timestamp
at call time, so two calls are safe exactly when their milliseconds
differ: if the clock strictly advances between the calls, the keys are
distinct, the embedded timestamp components are strictly increasing,
and the two successful writes leave two separate records; two calls in
the same millisecond collide (previous theorem). -/
theorem C4_distinct_ms_distinct_keys (uid : String) (t1 t2 : Nat)
    (n1 n2 : ℚ) (it1 c1 tk1 o1 it2 c2 tk2 o2 : String)
    (e1 e2 : List PyFloat) (h : t1 < t2) :
    intervention_key uid t1 ≠ intervention_key uid t2
    ∧ parseDec (renderDec t1).data < parseDec (renderDec t2).data
    ∧ record_intervention [] uid t1 n1 it1 c1 tk1 o1 e1 true
      = .ok (intervention_key uid t1,
          [⟨intervention_key uid t1, .interv ⟨it1, c1, tk1, o1, n1, e1⟩,
            60 * 60 * 24 * 30⟩])
    ∧ record_intervention
        [⟨intervention_key uid t1, .interv ⟨it1, c1, tk1, o1, n1, e1⟩,
          60 * 60 * 24 * 30⟩] uid t2 n2 it2 c2 tk2 o2 e2 true
      = .ok (intervention_key uid t2,
          [⟨intervention_key uid t1, .interv ⟨it1, c1, tk1, o1, n1, e1⟩,
            60 * 60 * 24 * 30⟩,
           ⟨intervention_key uid t2, .interv ⟨it2, c2, tk2, o2, n2, e2⟩,
            60 * 60 * 24 * 30⟩])
    ∧ count_keys
        [⟨intervention_key uid t1, .interv ⟨it1, c1, tk1, o1, n1, e1⟩,
          60 * 60 * 24 * 30⟩,
         ⟨intervention_key uid t2, .interv ⟨it2, c2, tk2, o2, n2, e2⟩,
          60 * 60 * 24 * 30⟩] (key_pattern uid "intervention") = 2 := by
  have hne : intervention_key uid t1 ≠ intervention_key uid t2 :=
    fun hk => absurd (intervention_key_inj uid hk) (by omega)
  refine ⟨hne, ?_, ?_, ?_, ?_⟩
  · rwa [parseDec_renderDec, parseDec_renderDec]
  · simp [record_intervention, json_set, redis_expire]
  · rw [record_intervention]
    simp only [if_pos]
    rw [json_set]
    simp [hne.symm, redis_expire, hne]
  · rw [count_keys]
    simp [List.filter, intervention_key, key_matches_own_pattern]

/-- C4 witness: the amended theorem at user `u1` and clock readings
1000 ms and 1001 ms. -/
theorem C4_distinct_ms_distinct_keys_witness :
    intervention_key "u1" 1000 ≠ intervention_key "u1" 1001
    ∧ parseDec (renderDec 1000).data < parseDec (renderDec 1001).data
    ∧ record_intervention [] "u1" 1000 0 "a" "c" "t" "task_completed"
        [] true
      = .ok (intervention_key "u1" 1000,
          [⟨intervention_key "u1" 1000,
            .interv ⟨"a", "c", "t", "task_completed", 0, []⟩,
            60 * 60 * 24 * 30⟩])
    ∧ record_intervention
        [⟨intervention_key "u1" 1000,
          .interv ⟨"a", "c", "t", "task_completed", 0, []⟩,
          60 * 60 * 24 * 30⟩] "u1" 1001 0 "b" "c" "t" "re_engaged"
        [] true
      = .ok (intervention_key "u1" 1001,
          [⟨intervention_key "u1" 1000,
            .interv ⟨"a", "c", "t", "task_completed", 0, []⟩,
            60 * 60 * 24 * 30⟩,
           ⟨intervention_key "u1" 1001,
            .interv ⟨"b", "c", "t", "re_engaged", 0, []⟩,
            60 * 60 * 24 * 30⟩])
    ∧ count_keys
        [⟨intervention_key "u1" 1000,
          .interv ⟨"a", "c", "t", "task_completed", 0, []⟩,
          60 * 60 * 24 * 30⟩,
         ⟨intervention_key "u1" 1001,
          .interv ⟨"b", "c", "t", "re_engaged", 0, []⟩,
          60 * 60 * 24 * 30⟩] (key_pattern "u1" "intervention") = 2 :=
  C4_distinct_ms_distinct_keys "u1" 1000 1001 0 0 "a" "c" "t"
    "task_completed" "b" "c" "t" "re_engaged" [] [] (by decide)

/-! ### C7: query deduplication -/

/-- A retrieval stub that always finds context. -/
def c7_retrieval : String → String :=
  fun _ => "Example 1 - Context: homework"

/-- A session mid-conversation: one completed turn, one user message. -/
def c7_state : ClientState :=
  ⟨true, true, none, none, none, 1,
    [⟨"user", "I cannot focus on my homework"⟩]⟩

/-- The repeated assistant turn. -/
def c7_event : SessionEvent := .assistantText "Okay."

/-- C7 counterexample: two consecutive turn-level injection attempts
derive the identical query "I cannot focus on my homework" (well above
the 10-character minimum), and BOTH issue a retrieval call — the
second is not skipped.  `_prepare_and_inject_dynamic_context` records
nothing about the query it used (it updates no client attribute), so
it cannot deduplicate; only the `send_text` path does. -/
theorem C7_turn_injector_repeats_identical_query :
    infer_query (session_step c7_retrieval c7_state c7_event).1
      = some "I cannot focus on my homework"
    ∧ (session_step c7_retrieval c7_state c7_event).2 = true
    ∧ infer_query (session_step c7_retrieval
        (session_step c7_retrieval c7_state c7_event).1 c7_event).1
      = some "I cannot focus on my homework"
    ∧ (session_step c7_retrieval
        (session_step c7_retrieval c7_state c7_event).1 c7_event).2
      = true :=
  ⟨rfl, rfl, rfl, rfl⟩

/-- C7 (amended): the skip rules hold, but split by path.  On the
`send_text` path, a second consecutive `_load_dynamic_context` call
with the identical message never issues a retrieval call, and a
message whose stripped form is shorter than 10 characters never does;
on the turn-level path, `_prepare_and_inject_dynamic_context` skips
only when no query can be derived or the derived query strips to fewer
than 10 characters — it performs no identical-query deduplication
(previous theorem). -/
theorem C7_dedup_only_on_text_path :
    (∀ (retrieval : String → String) (s : ClientState) (m : String),
      (load_dynamic_context retrieval
        (load_dynamic_context retrieval s m).2 m).1 = false)
    ∧ (∀ (retrieval : String → String) (s : ClientState) (m : String),
        (py_strip m).length < 10 →
        (load_dynamic_context retrieval s m).1 = false)
    ∧ (∀ (retrieval : String → String) (s : ClientState),
        infer_query s = none →
        (prepare_and_inject retrieval s).1 = false)
    ∧ (∀ (retrieval : String → String) (s : ClientState) (q : String),
        infer_query s = some q → (py_strip q).length < 10 →
        (prepare_and_inject retrieval s).1 = false) := by
  refine ⟨?_, ?_, ?_, ?_⟩
  · intro retrieval s m
    by_cases hc : s.has_memory = false ∨ m = "" ∨
        (py_strip m).length < 10
    · simp [load_dynamic_context, hc]
    · by_cases hd : s.last_user_message_for_context = some m
      · simp [load_dynamic_context, hc, hd]
      · simp [load_dynamic_context, hc, hd]
  · intro retrieval s m h
    simp [load_dynamic_context, h]
  · intro retrieval s h
    rw [prepare_and_inject]
    split
    · rfl
    · simp [h]
  · intro retrieval s q h hlen
    rw [prepare_and_inject]
    split
    · rfl
    · simp [h, hlen]

/-- C7 witness: the amended theorem at concrete states — a repeated
identical text message, a short text message, an empty fresh session,
and a session whose derived query is the 3-character "hey". -/
theorem C7_dedup_only_on_text_path_witness :
    (load_dynamic_context c7_retrieval
      (load_dynamic_context c7_retrieval (initial_client_state true true)
        "I cannot focus on my homework").2
      "I cannot focus on my homework").1 = false
    ∧ (load_dynamic_context c7_retrieval (initial_client_state true true)
        "hi").1 = false
    ∧ (prepare_and_inject c7_retrieval
        (initial_client_state true true)).1 = false
    ∧ (prepare_and_inject c7_retrieval
        ⟨true, true, none, none, none, 1, [⟨"user", "hey"⟩]⟩).1
      = false :=
  ⟨C7_dedup_only_on_text_path.1 c7_retrieval _ _,
    C7_dedup_only_on_text_path.2.1 c7_retrieval _ _ (by decide),
    C7_dedup_only_on_text_path.2.2.1 c7_retrieval _ rfl,
    C7_dedup_only_on_text_path.2.2.2 c7_retrieval _ "hey" rfl
      (by decide)⟩

/-! ### C8: when injection may fire -/

/-- A retrieval stub for the C8 scenarios. -/
def c8_retrieval : String → String :=
  fun _ => "Example 1 - Context: homework"

/-- C8 counterexample: in a fresh session (zero completed turns) the
very first user text already issues a retrieval call, and the first
outgoing message is primed with the retrieved block — `send_text`
loads dynamic context for every sufficiently long message regardless
of `_turn_count`, refuting "the very first turn is never primed with
retrieval, on any input path". -/
theorem C8_first_turn_primed_on_text_path :
    (initial_client_state true true).turn_count = 0
    ∧ (run_session c8_retrieval (initial_client_state true true)
        [.userText "I cannot focus on my homework"]).2 = [true]
    ∧ (send_text c8_retrieval (initial_client_state true true)
        "I cannot focus on my homework").2.2
      = some (wrap_with_context "Example 1 - Context: homework"
          "I cannot focus on my homework") :=
  ⟨rfl, rfl, rfl⟩

theorem load_dynamic_context_turn_count (r : String → String)
    (s : ClientState) (m : String) :
    ((load_dynamic_context r s m).2).turn_count = s.turn_count := by
  rw [load_dynamic_context]
  split
  · rfl
  · split <;> rfl

theorem send_text_turn_count (r : String → String) (s : ClientState)
    (t : String) :
    ((send_text r s t).2.1).turn_count = s.turn_count := by
  rw [send_text]
  split
  · rfl
  · exact load_dynamic_context_turn_count r _ t

theorem run_session_flag_aux (r : String → String) :
    ∀ (es : List SessionEvent) (s : ClientState) (i : Nat) (t : String),
      es[i]? = some (.assistantText t) →
      (run_session r s es).2[i]? = some true →
      0 < s.turn_count ∨ SessionEvent.turnComplete ∈ es.take i := by
  intro es
  induction es with
  | nil => intro s i t h1 _; simp at h1
  | cons e es ih =>
    intro s i t h1 h2
    cases i with
    | zero =>
      simp at h1
      subst h1
      left
      rw [run_session] at h2
      simp only [List.getElem?_cons_zero, Option.some.injEq] at h2
      rw [session_step] at h2
      simp only [Bool.and_eq_true, decide_eq_true_eq] at h2
      exact h2.1.2
    | succ j =>
      rw [run_session] at h2
      simp only [List.getElem?_cons_succ] at h1 h2
      have step := ih (session_step r s e).1 j t h1 h2
      cases e with
      | turnComplete =>
        right
        rw [List.take_succ_cons]
        exact List.mem_cons_self _ _
      | userText u =>
        rcases step with hpos | hmem
        · left
          rw [session_step] at hpos
          rwa [send_text_turn_count] at hpos
        · right
          rw [List.take_succ_cons]
          exact List.mem_cons_of_mem _ hmem
      | assistantText u =>
        rcases step with hpos | hmem
        · left
          rwa [session_step] at hpos
        · right
          rw [List.take_succ_cons]
          exact List.mem_cons_of_mem _ hmem

/-- C8 (amended): on the `receive_responses` path the guarantee holds —
along any event trace from a session with zero completed turns, an
assistant-text event can issue a turn-level retrieval only after some
`turn_complete` event occurred strictly earlier in the trace (the
guard `self._turn_count > 0`).  The `send_text` path, however, primes
retrieval on any sufficiently long user message, including before the
first turn completes (previous theorem). -/
theorem C8_turn_injection_requires_completed_turn
    (retrieval : String → String) (es : List SessionEvent)
    (s : ClientState) (hs : s.turn_count = 0) (i : Nat) (t : String)
    (hev : es[i]? = some (.assistantText t))
    (hflag : (run_session retrieval s es).2[i]? = some true) :
    SessionEvent.turnComplete ∈ es.take i := by
  rcases run_session_flag_aux retrieval es s i t hev hflag with hpos | hmem
  · omega
  · exact hmem

/-- C8 witness: after one completed turn, an assistant text whose
content mentions focusing triggers the turn-level injection, and the
theorem locates the earlier `turn_complete`. -/
theorem C8_turn_injection_requires_completed_turn_witness :
    SessionEvent.turnComplete ∈
      ([SessionEvent.turnComplete,
        SessionEvent.assistantText
          "Let us focus on your homework now"].take 1) :=
  C8_turn_injection_requires_completed_turn c8_retrieval
    [.turnComplete, .assistantText "Let us focus on your homework now"]
    (initial_client_state true true) rfl 1
    "Let us focus on your homework now" rfl rfl

/-! ### C9: retry policy -/

/-- An operation whose first attempt hits a connection error and which
would succeed on any retry. -/
def c9_flaky_op : Nat → Except String String :=
  fun n => if n = 1 then .error "Connection refused" else .ok "PONG"

/-- C9 counterexample: the repository's own retry helper, at its
default policy, absorbs a first-attempt connection error (it succeeds
on attempt 2) — but `record_intervention` does not use it, nor does
any other store or index operation: a single connection failure of the
write client escalates immediately to the caller. -/
theorem C9_store_write_not_retried :
    (retry_async default_retry_config (fun _ => true) c9_flaky_op).1
      = .ok "PONG"
    ∧ (retry_async default_retry_config (fun _ => true) c9_flaky_op).2.1
      = 2
    ∧ record_intervention [] "u1" 1000 0 "step" "ctx" "general"
        "task_completed" [] false = .error "Error storing intervention" :=
  ⟨rfl, rfl, rfl⟩

theorem retry_async_go_ok {ε α : Type} {retryable : ε → Bool}
    {op : Nat → Except ε α} {cfg : RetryConfig} {attempt : Nat}
    {a : α} (fuel : Nat) (h : op attempt = .ok a) :
    retry_async_go retryable op cfg attempt fuel =
      (.ok a, attempt, []) := by
  cases fuel <;> rw [retry_async_go, h]

theorem retry_async_go_fatal {ε α : Type} {retryable : ε → Bool}
    {op : Nat → Except ε α} {cfg : RetryConfig} {attempt : Nat}
    {e : ε} (fuel : Nat) (h : op attempt = .error e)
    (hr : retryable e = false) :
    retry_async_go retryable op cfg attempt fuel =
      (.error e, attempt, []) := by
  cases fuel <;> rw [retry_async_go, h] <;> simp [hr]

theorem retry_async_go_exhausted {ε α : Type} {retryable : ε → Bool}
    {op : Nat → Except ε α} {cfg : RetryConfig} {attempt : Nat}
    {e : ε} (h : op attempt = .error e) (hr : retryable e = true) :
    retry_async_go retryable op cfg attempt 0 =
      (.error e, attempt, []) := by
  rw [retry_async_go, h]
  simp [hr]

theorem retry_async_go_retry {ε α : Type} {retryable : ε → Bool}
    {op : Nat → Except ε α} {cfg : RetryConfig} {attempt : Nat}
    {e : ε} (fuel : Nat) (h : op attempt = .error e)
    (hr : retryable e = true) :
    retry_async_go retryable op cfg attempt (fuel + 1) =
      ((retry_async_go retryable op cfg (attempt + 1) fuel).1,
        (retry_async_go retryable op cfg (attempt + 1) fuel).2.1,
        backoff_delay cfg attempt ::
          (retry_async_go retryable op cfg (attempt + 1) fuel).2.2) := by
  rw [retry_async_go, h]
  simp [hr]

theorem retry_async_go_attempt_le {ε α : Type} (retryable : ε → Bool)
    (op : Nat → Except ε α) (cfg : RetryConfig) :
    ∀ (fuel attempt : Nat),
      (retry_async_go retryable op cfg attempt fuel).2.1 ≤
        attempt + fuel := by
  intro fuel
  induction fuel with
  | zero =>
    intro attempt
    rcases hop : op attempt with e | a
    · rcases hr : retryable e with _ | _
      · rw [retry_async_go_fatal 0 hop hr]
        simp
      · rw [retry_async_go_exhausted hop hr]
        simp
    · rw [retry_async_go_ok 0 hop]
      simp
  | succ fuel ih =>
    intro attempt
    rcases hop : op attempt with e | a
    · rcases hr : retryable e with _ | _
      · rw [retry_async_go_fatal (fuel + 1) hop hr]
        simp
      · rw [retry_async_go_retry fuel hop hr]
        have := ih (attempt + 1)
        simp only []
        omega
    · rw [retry_async_go_ok (fuel + 1) hop]
      simp

theorem retry_async_go_delays_le {ε α : Type} (retryable : ε → Bool)
    (op : Nat → Except ε α) (cfg : RetryConfig) :
    ∀ (fuel attempt : Nat),
      ∀ d ∈ (retry_async_go retryable op cfg attempt fuel).2.2,
        d ≤ cfg.max_delay := by
  intro fuel
  induction fuel with
  | zero =>
    intro attempt d hd
    rcases hop : op attempt with e | a
    · rcases hr : retryable e with _ | _
      · rw [retry_async_go_fatal 0 hop hr] at hd
        simp at hd
      · rw [retry_async_go_exhausted hop hr] at hd
        simp at hd
    · rw [retry_async_go_ok 0 hop] at hd
      simp at hd
  | succ fuel ih =>
    intro attempt d hd
    rcases hop : op attempt with e | a
    · rcases hr : retryable e with _ | _
      · rw [retry_async_go_fatal (fuel + 1) hop hr] at hd
        simp at hd
      · rw [retry_async_go_retry fuel hop hr] at hd
        simp only [List.mem_cons] at hd
        rcases hd with hd | hd
        · rw [hd, backoff_delay]
          exact min_le_right _ _
        · exact ih (attempt + 1) d hd
    · rw [retry_async_go_ok (fuel + 1) hop] at hd
      simp at hd

theorem retry_async_nonretryable_immediate {ε α : Type}
    (cfg : RetryConfig) (retryable : ε → Bool)
    (op : Nat → Except ε α) (e : ε) (hop : op 1 = .error e)
    (hr : retryable e = false) :
    retry_async cfg retryable op = (.error e, 1, []) := by
  rw [retry_async, retry_async_go, hop]
  simp [hr]

/-- C9 (amended): `retry.py` does define the claimed policy — the
helper makes at most `max_attempts` attempts, every back-off delay is
capped by `max_delay`, and a non-retryable first failure propagates
immediately after a single attempt — but no store or index operation
in the repository applies it: `record_intervention` performs exactly
one write attempt and escalates the first connection error to the
caller (previous theorem shows the contrast at the default policy). -/
theorem C9_retry_helper_unused_by_store (cfg : RetryConfig)
    (retryable : String → Bool) (op : Nat → Except String String)
    (e : String) (hmax : 1 ≤ cfg.max_attempts)
    (hop : op 1 = .error e) (hr : retryable e = false) :
    (retry_async cfg retryable op).2.1 ≤ cfg.max_attempts
    ∧ (∀ d ∈ (retry_async cfg retryable op).2.2, d ≤ cfg.max_delay)
    ∧ retry_async cfg retryable op = (.error e, 1, [])
    ∧ (∀ (store : RedisStore) (uid : String) (ts : Nat) (n : ℚ)
        (it c tk o : String) (emb : List PyFloat),
        record_intervention store uid ts n it c tk o emb false
          = .error "Error storing intervention") := by
  refine ⟨?_, ?_, ?_, fun _ _ _ _ _ _ _ _ _ => rfl⟩
  · have := retry_async_go_attempt_le retryable op cfg
      (cfg.max_attempts - 1) 1
    rw [retry_async]
    omega
  · exact retry_async_go_delays_le retryable op cfg _ 1
  · exact retry_async_nonretryable_immediate cfg retryable op e hop hr

/-- The non-retryable operation of the C9 witness. -/
def c9_fatal_op : Nat → Except String String :=
  fun _ => .error "Bad credentials"

/-- C9 witness: the amended theorem at the default policy, an
operation failing with a non-retryable fault, and a concrete failed
write. -/
theorem C9_retry_helper_unused_by_store_witness :
    (retry_async default_retry_config (fun _ => false) c9_fatal_op).2.1
      ≤ default_retry_config.max_attempts
    ∧ (∀ d ∈ (retry_async default_retry_config (fun _ => false)
        c9_fatal_op).2.2, d ≤ default_retry_config.max_delay)
    ∧ retry_async default_retry_config (fun _ => false) c9_fatal_op
      = (.error "Bad credentials", 1, [])
    ∧ (∀ (store : RedisStore) (uid : String) (ts : Nat) (n : ℚ)
        (it c tk o : String) (emb : List PyFloat),
        record_intervention store uid ts n it c tk o emb false
          = .error "Error storing intervention") :=
  C9_retry_helper_unused_by_store default_retry_config (fun _ => false)
    c9_fatal_op "Bad credentials" (by decide) rfl rfl

end SamVoice
